import Mathlib

/-
Verification of the gear-configurator core: the gear geometry generator
(createGearGeometry) and the GLB container serializer (exportGLB).

The generator is embedded over ℝ, with the JS Math library's cos, sin and
Math.hypot mapped to Real.cos, Real.sin and Real.sqrt of the sum of squares.
The serializer is embedded at byte level (bytes are natural numbers < 256);
IEEE-754 single-precision encoding of position/normal components is opaque
to every property proved here, so it is abstracted as a FloatModel record
(bit pattern, rounded value, JSON number rendering) passed as a parameter.
-/

/-- Mesh produced by the generator and consumed by the serializer:
flattened vertex positions, flattened normals, triangle indices. -/
structure Mesh where
  vertices : List ℝ
  normals : List ℝ
  indices : List ℕ

noncomputable section

/-- Angle step of the generator: (2 * Math.PI) / (teeth * 4). -/
def angleStep (teeth : ℕ) : ℝ := 2 * Real.pi / (teeth * 4)

/-- Radius used at boundary angle number i: positions 1 and 2 (mod 4) use
outerRadius + toothDepth, positions 0 and 3 use outerRadius.  This is the
r1 computation of the source (r2 is the same computation at i + 1). -/
def boundaryRadius (outerRadius toothDepth : ℝ) (i : ℕ) : ℝ :=
  if i % 4 = 1 ∨ i % 4 = 2 then outerRadius + toothDepth else outerRadius

/-- Math.hypot of two arguments. -/
def jsHypot (x y : ℝ) : ℝ := Real.sqrt (x * x + y * y)

/-- The JS idiom `l || 1`: a zero length is replaced by 1 before dividing. -/
def fallbackLen (l : ℝ) : ℝ := if l = 0 then 1 else l

/-- Flattened positions pushed by loop iteration i of createGearGeometry:
front face, back face, outer face, inner face, 4 vertices each. -/
def segVertices (innerRadius outerRadius width toothDepth : ℝ) (teeth i : ℕ) : List ℝ :=
  let angle := i * angleStep teeth
  let nextAngle := (i + 1 : ℕ) * angleStep teeth
  let r1 := boundaryRadius outerRadius toothDepth i
  let r2 := boundaryRadius outerRadius toothDepth (i + 1)
  let r3 := innerRadius
  let z := width * 0.5
  let c1 := Real.cos angle
  let s1 := Real.sin angle
  let c2 := Real.cos nextAngle
  let s2 := Real.sin nextAngle
  [r3 * c1, r3 * s1, z, r1 * c1, r1 * s1, z, r2 * c2, r2 * s2, z, r3 * c2, r3 * s2, z,
   r3 * c1, r3 * s1, -z, r1 * c1, r1 * s1, -z, r2 * c2, r2 * s2, -z, r3 * c2, r3 * s2, -z,
   r1 * c1, r1 * s1, z, r1 * c1, r1 * s1, -z, r2 * c2, r2 * s2, -z, r2 * c2, r2 * s2, z,
   r3 * c1, r3 * s1, z, r3 * c2, r3 * s2, z, r3 * c2, r3 * s2, -z, r3 * c1, r3 * s1, -z]

/-- Flattened normals pushed by loop iteration i of createGearGeometry. -/
def segNormals (innerRadius outerRadius width toothDepth : ℝ) (teeth i : ℕ) : List ℝ :=
  let angle := i * angleStep teeth
  let nextAngle := (i + 1 : ℕ) * angleStep teeth
  let r1 := boundaryRadius outerRadius toothDepth i
  let r2 := boundaryRadius outerRadius toothDepth (i + 1)
  let r3 := innerRadius
  let c1 := Real.cos angle
  let s1 := Real.sin angle
  let c2 := Real.cos nextAngle
  let s2 := Real.sin nextAngle
  let nox := r1 * s1 + r2 * s2
  let noy := -(r1 * c1 + r2 * c2)
  let lo := fallbackLen (jsHypot nox noy)
  let nxo := nox / lo
  let nyo := noy / lo
  let nix := -(r3 * s1 + r3 * s2)
  let niy := r3 * c1 + r3 * c2
  let li := fallbackLen (jsHypot nix niy)
  let nxi := nix / li
  let nyi := niy / li
  [0, 0, 1, 0, 0, 1, 0, 0, 1, 0, 0, 1,
   0, 0, -1, 0, 0, -1, 0, 0, -1, 0, 0, -1,
   nxo, nyo, 0, nxo, nyo, 0, nxo, nyo, 0, nxo, nyo, 0,
   nxi, nyi, 0, nxi, nyi, 0, nxi, nyi, 0, nxi, nyi, 0]

/-- Triangle indices pushed by loop iteration i.  The running counter
vertexIndex starts at 0 and is incremented 16 times per iteration, so at
the start of iteration i it equals 16 * i. -/
def segIndices (i : ℕ) : List ℕ :=
  let b := 16 * i
  [b, b + 1, b + 2, b, b + 2, b + 3,
   b + 4, b + 6, b + 5, b + 4, b + 7, b + 6,
   b + 8, b + 9, b + 10, b + 8, b + 10, b + 11,
   b + 12, b + 13, b + 14, b + 12, b + 14, b + 15]

/-- The gear geometry generator: one loop iteration per angular segment,
teeth * 4 segments in total. -/
def createGearGeometry (innerRadius outerRadius width : ℝ) (teeth : ℕ)
    (toothDepth : ℝ) : Mesh :=
  ⟨(List.range (teeth * 4)).flatMap (segVertices innerRadius outerRadius width toothDepth teeth),
   (List.range (teeth * 4)).flatMap (segNormals innerRadius outerRadius width toothDepth teeth),
   (List.range (teeth * 4)).flatMap segIndices⟩

end

/-- Sum of squares of the first three entries of a list, used to state
unit-length of a normal triple. -/
def sqNorm3 (l : List ℝ) : ℝ := l.getD 0 0 ^ 2 + l.getD 1 0 ^ 2 + l.getD 2 0 ^ 2

/-- Abstraction of IEEE-754 single precision, opaque to every property
proved about the serializer: bit pattern of a value stored in a
Float32Array, the rounded value read back from it, and the JSON rendering
of a finite number by JSON.stringify. -/
structure FloatModel where
  bits : ℝ → ℕ
  val : ℝ → ℝ
  toJson : ℝ → String

/-- Little-endian bytes of DataView.setUint32 (value taken mod 2^32). -/
def u32le (n : ℕ) : List ℕ :=
  [n % 256, n / 256 % 256, n / 65536 % 256, n / 16777216 % 256]

/-- Little-endian bytes of DataView.setUint16 (value taken mod 2^16). -/
def u16le (n : ℕ) : List ℕ := [n % 256, n / 256 % 256]

/-- The Uint16Array built from the index list: each element is converted
to an unsigned 16-bit integer, that is reduced mod 65536. -/
def indexData (m : Mesh) : List ℕ := m.indices.map (fun v => v % 65536)

/-- positions.byteLength: 4 bytes per position component. -/
def positionsByteLength (m : Mesh) : ℕ := 4 * m.vertices.length

/-- Byte offset of the positions segment inside the binary buffer. -/
def positionsByteOffset : ℕ := 0

/-- Byte offset of the normals segment inside the binary buffer. -/
def normalsByteOffset (m : Mesh) : ℕ := positionsByteLength m

/-- Byte offset of the index segment inside the binary buffer. -/
def indicesByteOffset (m : Mesh) : ℕ := normalsByteOffset m + 4 * m.normals.length

/-- Length of the binary buffer: positions, then normals, then indices. -/
def binaryBufferLength (m : Mesh) : ℕ := indicesByteOffset m + 2 * m.indices.length

/-- vertexCount = positions.length / 3.  The source divides with JS float
division; every mesh produced by the generator has a position-component
count divisible by 3, for which natural division agrees. -/
def vertexCount (m : Mesh) : ℕ := m.vertices.length / 3

/-- The binary buffer contents: position floats, normal floats, then
16-bit indices, written sequentially little-endian. -/
noncomputable def binaryPayload (F : FloatModel) (m : Mesh) : List ℕ :=
  m.vertices.flatMap (fun x => u32le (F.bits x)) ++
    m.normals.flatMap (fun x => u32le (F.bits x)) ++
    (indexData m).flatMap u16le

/-- A JS number as it flows through the min/max scan: the scan is seeded
with the Infinity and -Infinity sentinels, which ℝ cannot represent. -/
inductive JsNumber where
  | posInf
  | negInf
  | finite (x : ℝ)

/-- Math.min restricted to the values reaching it in the scan. -/
noncomputable def jsMin : JsNumber → JsNumber → JsNumber
  | .posInf, b => b
  | .negInf, _ => .negInf
  | .finite x, .posInf => .finite x
  | .finite _, .negInf => .negInf
  | .finite x, .finite y => .finite (min x y)

/-- Math.max restricted to the values reaching it in the scan. -/
noncomputable def jsMax : JsNumber → JsNumber → JsNumber
  | .negInf, b => b
  | .posInf, _ => .posInf
  | .finite x, .negInf => .finite x
  | .finite _, .posInf => .posInf
  | .finite x, .finite y => .finite (max x y)

/-- minPos[j] after the scan over all vertexCount vertices; the values
read from the Float32Array are the rounded values F.val. -/
noncomputable def minPosAt (F : FloatModel) (m : Mesh) (j : ℕ) : JsNumber :=
  (List.range (vertexCount m)).foldl
    (fun acc i => jsMin acc (.finite (F.val (m.vertices.getD (i * 3 + j) 0)))) .posInf

/-- maxPos[j] after the scan over all vertexCount vertices. -/
noncomputable def maxPosAt (F : FloatModel) (m : Mesh) (j : ℕ) : JsNumber :=
  (List.range (vertexCount m)).foldl
    (fun acc i => jsMax acc (.finite (F.val (m.vertices.getD (i * 3 + j) 0)))) .negInf

/-- JSON.stringify of a number: Infinity and -Infinity serialize as null,
finite values through the model's renderer. -/
def jsonOfNumber (F : FloatModel) : JsNumber → String
  | .posInf => "null"
  | .negInf => "null"
  | .finite x => F.toJson x

/-- Wraps a string in the JSON object braces emitted by JSON.stringify. -/
def jObj (s : String) : String := "\x7b" ++ s ++ "\x7d"

/-- JSON.stringify of the glTF JSON object literal of the source, with
keys in insertion order and no whitespace. -/
noncomputable def jsonString (F : FloatModel) (m : Mesh) : String :=
  jObj ("\"asset\":" ++ jObj ("\"version\":\"2.0\"") ++
    ",\"scenes\":[" ++ jObj ("\"nodes\":[0]") ++ "]" ++
    ",\"nodes\":[" ++ jObj ("\"mesh\":0") ++ "]" ++
    ",\"meshes\":[" ++
      jObj ("\"primitives\":[" ++
        jObj ("\"attributes\":" ++ jObj ("\"POSITION\":1,\"NORMAL\":2") ++
          ",\"indices\":0") ++ "]") ++ "]" ++
    ",\"buffers\":[" ++ jObj ("\"byteLength\":" ++ toString (binaryBufferLength m)) ++ "]" ++
    ",\"bufferViews\":[" ++
      jObj ("\"buffer\":0,\"byteOffset\":" ++ toString (indicesByteOffset m) ++
        ",\"byteLength\":" ++ toString (2 * m.indices.length) ++ ",\"target\":34963") ++ "," ++
      jObj ("\"buffer\":0,\"byteOffset\":" ++ toString positionsByteOffset ++
        ",\"byteLength\":" ++ toString (positionsByteLength m) ++ ",\"target\":34962") ++ "," ++
      jObj ("\"buffer\":0,\"byteOffset\":" ++ toString (normalsByteOffset m) ++
        ",\"byteLength\":" ++ toString (4 * m.normals.length) ++ ",\"target\":34962") ++ "]" ++
    ",\"accessors\":[" ++
      jObj ("\"bufferView\":0,\"componentType\":5123,\"count\":" ++
        toString m.indices.length ++ ",\"type\":\"SCALAR\"") ++ "," ++
      jObj ("\"bufferView\":1,\"componentType\":5126,\"count\":" ++
        toString (vertexCount m) ++ ",\"type\":\"VEC3\",\"min\":[" ++
        jsonOfNumber F (minPosAt F m 0) ++ "," ++ jsonOfNumber F (minPosAt F m 1) ++ "," ++
        jsonOfNumber F (minPosAt F m 2) ++ "],\"max\":[" ++
        jsonOfNumber F (maxPosAt F m 0) ++ "," ++ jsonOfNumber F (maxPosAt F m 1) ++ "," ++
        jsonOfNumber F (maxPosAt F m 2) ++ "]") ++ "," ++
      jObj ("\"bufferView\":2,\"componentType\":5126,\"count\":" ++
        toString (vertexCount m) ++ ",\"type\":\"VEC3\"") ++ "]")

/-- UTF-8 encoding of one unicode scalar value, as TextEncoder emits it. -/
def charUtf8 (c : Char) : List ℕ :=
  let n := c.toNat
  if n < 128 then [n]
  else if n < 2048 then [192 + n / 64, 128 + n % 64]
  else if n < 65536 then [224 + n / 4096, 128 + n / 64 % 64, 128 + n % 64]
  else [240 + n / 262144, 128 + n / 4096 % 64, 128 + n / 64 % 64, 128 + n % 64]

/-- UTF-8 encoding of a string, as new TextEncoder().encode produces. -/
def utf8Bytes (s : String) : List ℕ := s.data.flatMap charUtf8

/-- Byte length of the encoded JSON string. -/
noncomputable def jsonByteLength (F : FloatModel) (m : Mesh) : ℕ :=
  (utf8Bytes (jsonString F m)).length

/-- The fixed 12-byte GLB header length. -/
def headerByteLength : ℕ := 12

/-- JSON chunk length: Math.ceil(jsonByteLength / 4) * 4. -/
noncomputable def jsonChunkLength (F : FloatModel) (m : Mesh) : ℕ :=
  (jsonByteLength F m + 3) / 4 * 4

/-- Binary chunk length: the source uses the raw binary buffer length with
no padding. -/
def binaryChunkLength (m : Mesh) : ℕ := binaryBufferLength m

/-- Declared and allocated total byte length of the GLB blob. -/
noncomputable def totalByteLength (F : FloatModel) (m : Mesh) : ℕ :=
  headerByteLength + 8 + jsonChunkLength F m + 8 + binaryChunkLength m

/-- The 12-byte GLB header: magic, version 2, total length, little-endian. -/
noncomputable def glbHeader (F : FloatModel) (m : Mesh) : List ℕ :=
  u32le 0x46546C67 ++ (u32le 2 ++ u32le (totalByteLength F m))

/-- The JSON chunk: length, type tag, payload space-padded to the chunk
length. -/
noncomputable def jsonChunk (F : FloatModel) (m : Mesh) : List ℕ :=
  u32le (jsonChunkLength F m) ++ (u32le 0x4E4F534A ++
    (utf8Bytes (jsonString F m) ++
      List.replicate (jsonChunkLength F m - jsonByteLength F m) 0x20))

/-- The binary chunk: length, type tag, raw payload (no padding). -/
noncomputable def binChunk (F : FloatModel) (m : Mesh) : List ℕ :=
  u32le (binaryChunkLength m) ++ (u32le 0x004E4942 ++ binaryPayload F m)

/-- The GLB serializer.  The source allocates a buffer of totalByteLength
bytes and writes header, JSON chunk and binary chunk at consecutive
offsets with no gaps, which the concatenation reproduces byte for byte. -/
noncomputable def exportGLB (F : FloatModel) (m : Mesh) : List ℕ :=
  glbHeader F m ++ (jsonChunk F m ++ binChunk F m)

/-- Little-endian 32-bit read from a byte list (missing bytes read as 0). -/
def readU32LE (l : List ℕ) (off : ℕ) : ℕ :=
  l.getD off 0 + 256 * l.getD (off + 1) 0 + 65536 * l.getD (off + 2) 0 +
    16777216 * l.getD (off + 3) 0

/-- Little-endian 16-bit read from a byte list. -/
def readU16LE (l : List ℕ) (off : ℕ) : ℕ :=
  l.getD off 0 + 256 * l.getD (off + 1) 0

/-- A concrete float model for evaluating the serializer on meshes with no
vertices, where its three fields are never consulted. -/
def F0 : FloatModel := ⟨fun _ => 0, fun x => x, fun _ => "0"⟩

/-- The mesh with no vertices and no indices. -/
def emptyMesh : Mesh := ⟨[], [], []⟩

/-- A mesh with a single index: its binary payload is 2 bytes long, not a
multiple of 4. -/
def oddIndexMesh : Mesh := ⟨[], [], [0]⟩

/-- A mesh with one out-of-range index value for the 16-bit index width. -/
def wrapMesh : Mesh := ⟨[], [], [70000]⟩

/-- A mesh whose vertex count 65537 exceeds the 16-bit index capacity,
together with an index value that a 16-bit index cannot represent. -/
noncomputable def bigMesh : Mesh := ⟨List.replicate 196611 0, [], [65536]⟩

/-- The exact JSON text serialized for the mesh with no vertices and no
indices: every declared byte length and accessor count is 0 and the
position bounds are [null,null,null] (JSON.stringify of the untouched
Infinity sentinels). -/
def emptyMeshJson : String :=
  "\x7b\"asset\":\x7b\"version\":\"2.0\"\x7d,\"scenes\":[\x7b\"nodes\":[0]\x7d],\"nodes\":[" ++
    "\x7b\"mesh\":0\x7d],\"meshes\":[\x7b\"primitives\":[\x7b\"attributes\":\x7b\"POSITION\":1," ++
    "\"NORMAL\":2\x7d,\"indices\":0\x7d]\x7d],\"buffers\":[\x7b\"byteLength\":0\x7d],\"bufferVi" ++
    "ews\":[\x7b\"buffer\":0,\"byteOffset\":0,\"byteLength\":0,\"target\":34963\x7d,\x7b\"buffe" ++
    "r\":0,\"byteOffset\":0,\"byteLength\":0,\"target\":34962\x7d,\x7b\"buffer\":0,\"byteOffset" ++
    "\":0,\"byteLength\":0,\"target\":34962\x7d],\"accessors\":[\x7b\"bufferView\":0,\"componen" ++
    "tType\":5123,\"count\":0,\"type\":\"SCALAR\"\x7d,\x7b\"bufferView\":1,\"componentType\":51" ++
    "26,\"count\":0,\"type\":\"VEC3\",\"min\":[null,null,null],\"max\":[null,null,null]\x7d," ++
    "\x7b\"bufferView\":2,\"componentType\":5126,\"count\":0,\"type\":\"VEC3\"\x7d]\x7d"


theorem flatMap_const_length {α β : Type} (l : List α) (f : α → List β) (c : ℕ)
    (h : ∀ a, (f a).length = c) : (l.flatMap f).length = c * l.length := by
  induction l with
  | nil => simp
  | cons a t ih =>
    simp only [List.flatMap_cons, List.length_append, ih, h a, List.length_cons]
    ring

theorem flatMap_range_drop {α : Type} (f : ℕ → List α) (c n i : ℕ)
    (hc : ∀ j, (f j).length = c) (hi : i < n) :
    ∃ rest, ((List.range n).flatMap f).drop (c * i) = f i ++ rest := by
  obtain ⟨k, rfl⟩ : ∃ k, n = i + (k + 1) := ⟨n - i - 1, by omega⟩
  refine ⟨((List.map Nat.succ (List.range k)).map (fun x => i + x)).flatMap f, ?_⟩
  rw [List.range_add, List.flatMap_append,
    List.drop_left' (by rw [flatMap_const_length _ f c hc, List.length_range, Nat.mul_comm])]
  rw [List.range_succ_eq_map, List.map_cons, List.flatMap_cons, Nat.add_zero]

theorem flatMap_range_extract {α : Type} (f : ℕ → List α) (c n i r t : ℕ)
    (hc : ∀ j, (f j).length = c) (hi : i < n) (hrt : r + t ≤ c) :
    (((List.range n).flatMap f).drop (c * i + r)).take t = ((f i).drop r).take t := by
  obtain ⟨rest, hdrop⟩ := flatMap_range_drop f c n i hc hi
  rw [← List.drop_drop, hdrop,
    List.drop_append_of_le_length (by rw [hc i]; omega),
    List.take_append_of_le_length (by rw [List.length_drop, hc i]; omega)]

theorem segVertices_length (innerRadius outerRadius width toothDepth : ℝ)
    (teeth i : ℕ) :
    (segVertices innerRadius outerRadius width toothDepth teeth i).length = 48 := by
  simp [segVertices]

theorem segNormals_length (innerRadius outerRadius width toothDepth : ℝ)
    (teeth i : ℕ) :
    (segNormals innerRadius outerRadius width toothDepth teeth i).length = 48 := by
  simp [segNormals]

theorem segIndices_length (i : ℕ) : (segIndices i).length = 24 := by
  simp [segIndices]

theorem createGearGeometry_vertices_length (innerRadius outerRadius width toothDepth : ℝ)
    (teeth : ℕ) :
    (createGearGeometry innerRadius outerRadius width teeth toothDepth).vertices.length
      = teeth * 4 * 48 := by
  simp only [createGearGeometry]
  rw [flatMap_const_length _ _ 48 (segVertices_length innerRadius outerRadius width toothDepth teeth)]
  simp only [List.length_range]
  ring

theorem createGearGeometry_normals_length (innerRadius outerRadius width toothDepth : ℝ)
    (teeth : ℕ) :
    (createGearGeometry innerRadius outerRadius width teeth toothDepth).normals.length
      = teeth * 4 * 48 := by
  simp only [createGearGeometry]
  rw [flatMap_const_length _ _ 48 (segNormals_length innerRadius outerRadius width toothDepth teeth)]
  simp only [List.length_range]
  ring

theorem createGearGeometry_indices_length (innerRadius outerRadius width toothDepth : ℝ)
    (teeth : ℕ) :
    (createGearGeometry innerRadius outerRadius width teeth toothDepth).indices.length
      = teeth * 4 * 24 := by
  simp only [createGearGeometry]
  rw [flatMap_const_length _ _ 24 segIndices_length]
  simp only [List.length_range]
  ring

theorem u32le_length (n : ℕ) : (u32le n).length = 4 := rfl

theorem u16le_length (n : ℕ) : (u16le n).length = 2 := rfl

theorem readU32LE_u32le (n : ℕ) (rest : List ℕ) :
    readU32LE (u32le n ++ rest) 0 = n % 4294967296 := by
  simp only [readU32LE, u32le, List.cons_append, List.nil_append,
    List.getD_cons_zero, List.getD_cons_succ]
  omega

theorem readU32LE_append (pre l : List ℕ) (off k : ℕ) (h : off = pre.length + k) :
    readU32LE (pre ++ l) off = readU32LE l k := by
  subst h
  unfold readU32LE
  rw [List.getD_append_right _ _ _ _ (by omega), List.getD_append_right _ _ _ _ (by omega),
    List.getD_append_right _ _ _ _ (by omega), List.getD_append_right _ _ _ _ (by omega)]
  have e0 : pre.length + k - pre.length = k := by omega
  have e1 : pre.length + k + 1 - pre.length = k + 1 := by omega
  have e2 : pre.length + k + 2 - pre.length = k + 2 := by omega
  have e3 : pre.length + k + 3 - pre.length = k + 3 := by omega
  rw [e0, e1, e2, e3]

theorem readU16LE_append (pre l : List ℕ) (off k : ℕ) (h : off = pre.length + k) :
    readU16LE (pre ++ l) off = readU16LE l k := by
  subst h
  unfold readU16LE
  rw [List.getD_append_right _ _ _ _ (by omega), List.getD_append_right _ _ _ _ (by omega)]
  have e0 : pre.length + k - pre.length = k := by omega
  have e1 : pre.length + k + 1 - pre.length = k + 1 := by omega
  rw [e0, e1]

theorem readU16LE_index_segment (l : List ℕ) (k : ℕ) (hk : k < l.length) :
    readU16LE ((l.map (fun v => v % 65536)).flatMap u16le) (2 * k) = l.getD k 0 % 65536 := by
  induction l generalizing k with
  | nil => simp at hk
  | cons a t ih =>
    cases k with
    | zero =>
      simp only [List.map_cons, List.flatMap_cons, readU16LE, u16le, List.cons_append,
        List.nil_append, List.getD_cons_zero, List.getD_cons_succ, Nat.mul_zero]
      omega
    | succ k' =>
      have hlen : (2 : ℕ) * (k' + 1) = (u16le (a % 65536)).length + 2 * k' := by
        rw [u16le_length]; ring
      simp only [List.map_cons, List.flatMap_cons]
      rw [readU16LE_append _ _ _ _ hlen, ih k' (by simpa using hk), List.getD_cons_succ]

theorem binaryPayload_length (F : FloatModel) (m : Mesh) :
    (binaryPayload F m).length = binaryBufferLength m := by
  simp only [binaryPayload, List.length_append]
  rw [flatMap_const_length m.vertices (fun x => u32le (F.bits x)) 4 (fun a => u32le_length _),
    flatMap_const_length m.normals (fun x => u32le (F.bits x)) 4 (fun a => u32le_length _),
    flatMap_const_length (indexData m) u16le 2 (fun a => u16le_length _)]
  simp only [indexData, List.length_map, binaryBufferLength, indicesByteOffset,
    normalsByteOffset, positionsByteLength]

theorem jsonByteLength_le_chunk (F : FloatModel) (m : Mesh) :
    jsonByteLength F m ≤ jsonChunkLength F m := by
  unfold jsonChunkLength
  omega

theorem jsonChunkLength_mod4 (F : FloatModel) (m : Mesh) :
    jsonChunkLength F m % 4 = 0 := by
  unfold jsonChunkLength
  omega

theorem glbHeader_length (F : FloatModel) (m : Mesh) : (glbHeader F m).length = 12 := rfl

theorem jsonChunk_length (F : FloatModel) (m : Mesh) :
    (jsonChunk F m).length = 8 + jsonChunkLength F m := by
  unfold jsonChunk
  simp only [List.length_append, u32le_length, List.length_replicate]
  have h : (utf8Bytes (jsonString F m)).length = jsonByteLength F m := rfl
  rw [h]
  have := jsonByteLength_le_chunk F m
  omega

theorem binChunk_length (F : FloatModel) (m : Mesh) :
    (binChunk F m).length = 8 + binaryChunkLength m := by
  unfold binChunk
  simp only [List.length_append, u32le_length, binaryPayload_length, binaryChunkLength]
  omega

theorem exportGLB_length (F : FloatModel) (m : Mesh) :
    (exportGLB F m).length = totalByteLength F m := by
  simp only [exportGLB, List.length_append, glbHeader_length, jsonChunk_length,
    binChunk_length, totalByteLength, headerByteLength]
  omega

theorem exportGLB_assoc (F : FloatModel) (m : Mesh) :
    exportGLB F m = u32le 0x46546C67 ++ (u32le 2 ++ (u32le (totalByteLength F m) ++
      (jsonChunk F m ++ binChunk F m))) := by
  simp only [exportGLB, glbHeader, List.append_assoc]

theorem readU32LE_exportGLB_magic (F : FloatModel) (m : Mesh) :
    readU32LE (exportGLB F m) 0 = 0x46546C67 := by
  rw [exportGLB_assoc, readU32LE_u32le]

theorem readU32LE_exportGLB_version (F : FloatModel) (m : Mesh) :
    readU32LE (exportGLB F m) 4 = 2 := by
  rw [exportGLB_assoc, readU32LE_append _ _ 4 0 (by rw [u32le_length]), readU32LE_u32le]

theorem readU32LE_exportGLB_total (F : FloatModel) (m : Mesh) :
    readU32LE (exportGLB F m) 8 = totalByteLength F m % 4294967296 := by
  rw [exportGLB_assoc, readU32LE_append _ _ 8 4 (by rw [u32le_length]),
    readU32LE_append _ _ 4 0 (by rw [u32le_length]), readU32LE_u32le]

theorem readU32LE_exportGLB_binChunkLength (F : FloatModel) (m : Mesh) :
    readU32LE (exportGLB F m) (20 + jsonChunkLength F m)
      = binaryChunkLength m % 4294967296 := by
  have hpre : (glbHeader F m ++ jsonChunk F m).length = 20 + jsonChunkLength F m := by
    rw [List.length_append, glbHeader_length, jsonChunk_length]
    omega
  have hassoc : exportGLB F m = (glbHeader F m ++ jsonChunk F m) ++ binChunk F m := by
    simp only [exportGLB, List.append_assoc]
  rw [hassoc, readU32LE_append _ _ _ 0 (by rw [hpre]; ring), binChunk, readU32LE_u32le]

theorem vertexCount_mk (v n : List ℝ) (idx : List ℕ) :
    vertexCount ⟨v, n, idx⟩ = v.length / 3 := rfl

theorem indexData_mk (v n : List ℝ) (idx : List ℕ) :
    indexData ⟨v, n, idx⟩ = idx.map (fun x => x % 65536) := rfl

theorem fallbackLen_of_ne (l : ℝ) (h : l ≠ 0) : fallbackLen l = l := if_neg h

theorem sqNorm3_normalized (x y : ℝ) :
    sqNorm3 [x / fallbackLen (jsHypot x y), y / fallbackLen (jsHypot x y), 0] = 1 ∨
    [x / fallbackLen (jsHypot x y), y / fallbackLen (jsHypot x y), (0 : ℝ)] = [0, 0, 0] := by
  by_cases h : jsHypot x y = 0
  · right
    unfold jsHypot at h
    have h0 : x * x + y * y ≤ 0 := Real.sqrt_eq_zero'.mp h
    have hx : x = 0 := by nlinarith
    have hy : y = 0 := by nlinarith
    simp [hx, hy]
  · left
    have hl : fallbackLen (jsHypot x y) = jsHypot x y := fallbackLen_of_ne _ h
    have hs : jsHypot x y ^ 2 = x * x + y * y := by
      unfold jsHypot
      rw [Real.sq_sqrt (by nlinarith [mul_self_nonneg x, mul_self_nonneg y])]
    have hne : x * x + y * y ≠ 0 := by
      intro h0
      apply h
      unfold jsHypot
      rw [h0, Real.sqrt_zero]
    simp only [sqNorm3, List.getD_cons_zero, List.getD_cons_succ, hl]
    rw [div_pow, div_pow, hs]
    have hxy : x ^ 2 / (x * x + y * y) + y ^ 2 / (x * x + y * y) = 1 := by
      rw [div_add_div_same]
      rw [show x ^ 2 + y ^ 2 = x * x + y * y by ring]
      exact div_self hne
    nlinarith [hxy]

/-- C1: the claim states that createGearGeometry validates its parameters
and fails with a ValidationError for equal radii before allocating mesh
data.  The source performs no validation and has no failure channel: at
the spec's own failing example (innerRadius = outerRadius = 1.0, width
0.3, teeth 12, toothDepth 0.2) it allocates and returns a complete
768-vertex, 1152-index mesh (a degenerate ring) instead of raising. -/
theorem gear_no_validation_equal_radii :
    (createGearGeometry 1 1 0.3 12 0.2).vertices.length = 2304 ∧
    (createGearGeometry 1 1 0.3 12 0.2).normals.length = 2304 ∧
    (createGearGeometry 1 1 0.3 12 0.2).indices.length = 1152 := by
  refine ⟨?_, ?_, ?_⟩
  · rw [createGearGeometry_vertices_length]
  · rw [createGearGeometry_normals_length]
  · rw [createGearGeometry_indices_length]

/-- C2: the claim states that exportGLB fails with a CapacityError when
the vertex count exceeds 65536.  The source has no such check: on a mesh
with 65537 vertices and an index value of 65536 it still produces a full
blob of the declared length, and the Uint16Array conversion silently
wraps the index 65536 to 0. -/
theorem exportGLB_wraps_large_mesh :
    vertexCount bigMesh = 65537 ∧
    indexData bigMesh = [0] ∧
    (exportGLB F0 bigMesh).length = totalByteLength F0 bigMesh := by
  refine ⟨?_, ?_, exportGLB_length F0 bigMesh⟩
  · rw [show bigMesh = Mesh.mk (List.replicate 196611 0) [] [65536] from rfl,
      vertexCount_mk, List.length_replicate]
  · rw [show bigMesh = Mesh.mk (List.replicate 196611 0) [] [65536] from rfl, indexData_mk]
    decide

/-- C3: for every valid parameter set the generated mesh has exactly
teeth*4*16 vertices (teeth*4*16*3 position components), a normals
sequence of the same length as the positions sequence, and exactly
teeth*4*24 index values. -/
theorem gear_output_size (innerRadius outerRadius width : ℝ) (teeth : ℕ) (toothDepth : ℝ)
    (h1 : 0 < innerRadius) (h2 : innerRadius < outerRadius) (h3 : 0 < width)
    (h4 : 3 ≤ teeth) (h5 : teeth ≤ 1000) (h6 : 0 ≤ toothDepth) :
    (createGearGeometry innerRadius outerRadius width teeth toothDepth).vertices.length
        = teeth * 4 * 16 * 3 ∧
    (createGearGeometry innerRadius outerRadius width teeth toothDepth).normals.length
        = (createGearGeometry innerRadius outerRadius width teeth toothDepth).vertices.length ∧
    (createGearGeometry innerRadius outerRadius width teeth toothDepth).indices.length
        = teeth * 4 * 24 := by
  rw [createGearGeometry_vertices_length, createGearGeometry_normals_length,
    createGearGeometry_indices_length]
  omega

theorem gear_output_size_witness :
    ((0 : ℝ) < 1 ∧ (1 : ℝ) < 2 ∧ (0 : ℝ) < 1 ∧ 3 ≤ 3 ∧ 3 ≤ 1000 ∧ (0 : ℝ) ≤ 0) ∧
    ((createGearGeometry 1 2 1 3 0).vertices.length = 3 * 4 * 16 * 3 ∧
     (createGearGeometry 1 2 1 3 0).normals.length
        = (createGearGeometry 1 2 1 3 0).vertices.length ∧
     (createGearGeometry 1 2 1 3 0).indices.length = 3 * 4 * 24) :=
  ⟨⟨one_pos, one_lt_two, one_pos, le_refl 3, by decide, le_refl 0⟩,
   gear_output_size 1 2 1 3 0 one_pos one_lt_two one_pos (le_refl 3) (by decide) (le_refl 0)⟩

/-- C5: for every valid parameter set, every index value of the generated
mesh is strictly below the vertex count teeth*4*16 (the positions list
has 3 components per vertex), and the index count is a multiple of 3. -/
theorem gear_mesh_invariant (innerRadius outerRadius width : ℝ) (teeth : ℕ) (toothDepth : ℝ)
    (h1 : 0 < innerRadius) (h2 : innerRadius < outerRadius) (h3 : 0 < width)
    (h4 : 3 ≤ teeth) (h5 : teeth ≤ 1000) (h6 : 0 ≤ toothDepth) :
    (∀ v ∈ (createGearGeometry innerRadius outerRadius width teeth toothDepth).indices,
        v < teeth * 4 * 16) ∧
    (createGearGeometry innerRadius outerRadius width teeth toothDepth).vertices.length
        = 3 * (teeth * 4 * 16) ∧
    3 ∣ (createGearGeometry innerRadius outerRadius width teeth toothDepth).indices.length := by
  refine ⟨?_, ?_, ?_⟩
  · intro v hv
    simp only [createGearGeometry] at hv
    rw [List.mem_flatMap] at hv
    obtain ⟨i, hi, hvi⟩ := hv
    rw [List.mem_range] at hi
    simp only [segIndices, List.mem_cons, List.not_mem_nil, or_false] at hvi
    omega
  · rw [createGearGeometry_vertices_length]
    ring
  · rw [createGearGeometry_indices_length]
    omega

theorem gear_mesh_invariant_witness :
    ((0 : ℝ) < 1 ∧ (1 : ℝ) < 2 ∧ (0 : ℝ) < 1 ∧ 3 ≤ 3 ∧ 3 ≤ 1000 ∧ (0 : ℝ) ≤ 0) ∧
    ((∀ v ∈ (createGearGeometry 1 2 1 3 0).indices, v < 3 * 4 * 16) ∧
     (createGearGeometry 1 2 1 3 0).vertices.length = 3 * (3 * 4 * 16) ∧
     3 ∣ (createGearGeometry 1 2 1 3 0).indices.length) :=
  ⟨⟨one_pos, one_lt_two, one_pos, le_refl 3, by decide, le_refl 0⟩,
   gear_mesh_invariant 1 2 1 3 0 one_pos one_lt_two one_pos (le_refl 3) (by decide) (le_refl 0)⟩

/-- C6: for every input mesh (whose blob fits the 32-bit length field),
the produced blob begins with a little-endian header whose magic field is
0x46546C67, whose version field is 2, and whose declared total byte
length equals the actual byte length of the blob. -/
theorem exportGLB_header_fields (F : FloatModel) (m : Mesh)
    (h : totalByteLength F m < 4294967296) :
    readU32LE (exportGLB F m) 0 = 0x46546C67 ∧
    readU32LE (exportGLB F m) 4 = 2 ∧
    readU32LE (exportGLB F m) 8 = (exportGLB F m).length := by
  refine ⟨readU32LE_exportGLB_magic F m, readU32LE_exportGLB_version F m, ?_⟩
  rw [readU32LE_exportGLB_total, exportGLB_length, Nat.mod_eq_of_lt h]

set_option maxRecDepth 100000 in
theorem exportGLB_header_fields_witness :
    totalByteLength F0 emptyMesh < 4294967296 ∧
    (readU32LE (exportGLB F0 emptyMesh) 0 = 0x46546C67 ∧
     readU32LE (exportGLB F0 emptyMesh) 4 = 2 ∧
     readU32LE (exportGLB F0 emptyMesh) 8 = (exportGLB F0 emptyMesh).length) :=
  ⟨by decide, exportGLB_header_fields F0 emptyMesh (by decide)⟩

/-- C7: the claim states that a binary payload whose length is not a
multiple of 4 is zero-padded and the binary chunk length field reflects
the padded length.  The source applies no padding: for the mesh with one
index (payload 2 bytes) the binary chunk length field of the blob is 2,
and the whole blob's length is 2 mod 4, so the written chunk is not
4-byte aligned. -/
theorem exportGLB_unpadded_binary_chunk :
    binaryBufferLength oddIndexMesh = 2 ∧
    readU32LE (exportGLB F0 oddIndexMesh) (20 + jsonChunkLength F0 oddIndexMesh) = 2 ∧
    (exportGLB F0 oddIndexMesh).length % 4 = 2 := by
  refine ⟨rfl, ?_, ?_⟩
  · rw [readU32LE_exportGLB_binChunkLength]
    decide
  · rw [exportGLB_length]
    have h := jsonChunkLength_mod4 F0 oddIndexMesh
    have hb : binaryChunkLength oddIndexMesh = 2 := rfl
    unfold totalByteLength headerByteLength
    rw [hb]
    omega

set_option maxRecDepth 100000 in
/-- C8: the mesh with zero vertices and zero indices serializes without
failing: the JSON chunk is the well-formed minimal glTF document below,
in which all three accessors have count 0, and the blob is a complete
container of the declared total length. -/
theorem exportGLB_empty_mesh (F : FloatModel) :
    jsonString F emptyMesh = emptyMeshJson ∧
    vertexCount emptyMesh = 0 ∧
    emptyMesh.indices.length = 0 ∧
    binaryBufferLength emptyMesh = 0 ∧
    (exportGLB F emptyMesh).length = totalByteLength F emptyMesh :=
  ⟨rfl, rfl, rfl, rfl, exportGLB_length F emptyMesh⟩

/-- C10: for every input mesh and every position k in the index list, the
16-bit value stored in the blob's index segment is the index value
reduced mod 65536; no failure occurs (the blob always has its declared
length) and the declared accessor count stays the full index count. -/
theorem exportGLB_index_wrap (F : FloatModel) (m : Mesh) (k : ℕ)
    (hk : k < m.indices.length) :
    readU16LE (binaryPayload F m) (indicesByteOffset m + 2 * k)
        = m.indices.getD k 0 % 65536 ∧
    (indexData m).length = m.indices.length ∧
    (exportGLB F m).length = totalByteLength F m := by
  refine ⟨?_, by simp [indexData], exportGLB_length F m⟩
  have hpre : (m.vertices.flatMap (fun x => u32le (F.bits x)) ++
      m.normals.flatMap (fun x => u32le (F.bits x))).length = indicesByteOffset m := by
    rw [List.length_append,
      flatMap_const_length m.vertices (fun x => u32le (F.bits x)) 4 (fun a => u32le_length _),
      flatMap_const_length m.normals (fun x => u32le (F.bits x)) 4 (fun a => u32le_length _)]
    simp only [indicesByteOffset, normalsByteOffset, positionsByteLength]
  have hsplit : binaryPayload F m = (m.vertices.flatMap (fun x => u32le (F.bits x)) ++
      m.normals.flatMap (fun x => u32le (F.bits x))) ++ (indexData m).flatMap u16le := by
    simp only [binaryPayload, List.append_assoc]
  rw [hsplit, readU16LE_append _ _ _ (2 * k) (by rw [hpre])]
  exact readU16LE_index_segment m.indices k hk

theorem exportGLB_index_wrap_witness :
    0 < wrapMesh.indices.length ∧
    (readU16LE (binaryPayload F0 wrapMesh) (indicesByteOffset wrapMesh + 2 * 0)
        = wrapMesh.indices.getD 0 0 % 65536 ∧
     (indexData wrapMesh).length = wrapMesh.indices.length ∧
     (exportGLB F0 wrapMesh).length = totalByteLength F0 wrapMesh) :=
  ⟨by decide, exportGLB_index_wrap F0 wrapMesh 0 (by decide)⟩

/-- C4: for every valid parameter set and every segment i < teeth*4, the
front face of segment i consists of the four vertices at z = +width/2, at
the angles i*(2pi/(teeth*4)) and (i+1)*(2pi/(teeth*4)), with bore radius
innerRadius and boundary radii selected by the boundary index mod 4
(positions 1 and 2 mod 4 at outerRadius + toothDepth, positions 0 and 3
at outerRadius). -/
theorem gear_front_face_layout (innerRadius outerRadius width : ℝ) (teeth : ℕ) (toothDepth : ℝ)
    (h1 : 0 < innerRadius) (h2 : innerRadius < outerRadius) (h3 : 0 < width)
    (h4 : 3 ≤ teeth) (h5 : teeth ≤ 1000) (h6 : 0 ≤ toothDepth)
    (i : ℕ) (hi : i < teeth * 4) :
    (((createGearGeometry innerRadius outerRadius width teeth toothDepth).vertices).drop
        (48 * i)).take 12 =
      [innerRadius * Real.cos (i * (2 * Real.pi / (teeth * 4))),
       innerRadius * Real.sin (i * (2 * Real.pi / (teeth * 4))),
       width / 2,
       (if i % 4 = 1 ∨ i % 4 = 2 then outerRadius + toothDepth else outerRadius) *
         Real.cos (i * (2 * Real.pi / (teeth * 4))),
       (if i % 4 = 1 ∨ i % 4 = 2 then outerRadius + toothDepth else outerRadius) *
         Real.sin (i * (2 * Real.pi / (teeth * 4))),
       width / 2,
       (if (i + 1) % 4 = 1 ∨ (i + 1) % 4 = 2 then outerRadius + toothDepth else outerRadius) *
         Real.cos ((i + 1 : ℕ) * (2 * Real.pi / (teeth * 4))),
       (if (i + 1) % 4 = 1 ∨ (i + 1) % 4 = 2 then outerRadius + toothDepth else outerRadius) *
         Real.sin ((i + 1 : ℕ) * (2 * Real.pi / (teeth * 4))),
       width / 2,
       innerRadius * Real.cos ((i + 1 : ℕ) * (2 * Real.pi / (teeth * 4))),
       innerRadius * Real.sin ((i + 1 : ℕ) * (2 * Real.pi / (teeth * 4))),
       width / 2] := by
  have hc : ∀ j, (segVertices innerRadius outerRadius width toothDepth teeth j).length = 48 :=
    fun j => segVertices_length _ _ _ _ _ _
  have he := flatMap_range_extract (segVertices innerRadius outerRadius width toothDepth teeth)
    48 (teeth * 4) i 0 12 hc hi (by norm_num)
  rw [Nat.add_zero] at he
  simp only [createGearGeometry]
  rw [he, List.drop_zero]
  simp only [segVertices, angleStep, boundaryRadius]
  norm_num [List.take]
  ring

theorem gear_front_face_layout_witness :
    ((0 : ℝ) < 1 ∧ (1 : ℝ) < 2 ∧ (0 : ℝ) < 1 ∧ 3 ≤ 3 ∧ 3 ≤ 1000 ∧ (0 : ℝ) ≤ 0 ∧
      0 < 3 * 4) ∧
    (((createGearGeometry 1 2 1 3 0).vertices).drop (48 * 0)).take 12 =
      [(1 : ℝ) * Real.cos ((0 : ℕ) * (2 * Real.pi / ((3 : ℕ) * 4))),
       (1 : ℝ) * Real.sin ((0 : ℕ) * (2 * Real.pi / ((3 : ℕ) * 4))),
       (1 : ℝ) / 2,
       (if 0 % 4 = 1 ∨ 0 % 4 = 2 then (2 : ℝ) + 0 else 2) *
         Real.cos ((0 : ℕ) * (2 * Real.pi / ((3 : ℕ) * 4))),
       (if 0 % 4 = 1 ∨ 0 % 4 = 2 then (2 : ℝ) + 0 else 2) *
         Real.sin ((0 : ℕ) * (2 * Real.pi / ((3 : ℕ) * 4))),
       (1 : ℝ) / 2,
       (if (0 + 1) % 4 = 1 ∨ (0 + 1) % 4 = 2 then (2 : ℝ) + 0 else 2) *
         Real.cos ((0 + 1 : ℕ) * (2 * Real.pi / ((3 : ℕ) * 4))),
       (if (0 + 1) % 4 = 1 ∨ (0 + 1) % 4 = 2 then (2 : ℝ) + 0 else 2) *
         Real.sin ((0 + 1 : ℕ) * (2 * Real.pi / ((3 : ℕ) * 4))),
       (1 : ℝ) / 2,
       (1 : ℝ) * Real.cos ((0 + 1 : ℕ) * (2 * Real.pi / ((3 : ℕ) * 4))),
       (1 : ℝ) * Real.sin ((0 + 1 : ℕ) * (2 * Real.pi / ((3 : ℕ) * 4))),
       (1 : ℝ) / 2] :=
  ⟨⟨one_pos, one_lt_two, one_pos, le_refl 3, by decide, le_refl 0, by decide⟩,
   gear_front_face_layout 1 2 1 3 0 one_pos one_lt_two one_pos (le_refl 3) (by decide)
     (le_refl 0) 0 (by decide)⟩

/-- C9: the claim states that every emitted normal has unit length within
1e-4, with a degenerate fallback producing a unit vector.  At the input
(innerRadius 0, outerRadius 1, width 1, teeth 3, toothDepth 0) the inner
face normal of segment 0 (normal components 36..38) is the zero vector:
the fallback divides the zero vector by 1, so its length is 0, not within
1e-4 of 1 and not a unit vector. -/
theorem gear_zero_normal_at_zero_inner :
    (((createGearGeometry 0 1 1 3 0).normals).drop 36).take 3 = [0, 0, 0] ∧
    sqNorm3 ((((createGearGeometry 0 1 1 3 0).normals).drop 36).take 3) = 0 := by
  have hc : ∀ j2, (segNormals 0 1 1 0 3 j2).length = 48 :=
    fun j2 => segNormals_length _ _ _ _ _ _
  have he := flatMap_range_extract (segNormals 0 1 1 0 3) 48 12 0 36 3 hc
    (by norm_num) (by norm_num)
  have h36 : (48 * 0 + 36 : ℕ) = 36 := by norm_num
  rw [h36] at he
  have hmain : (((createGearGeometry 0 1 1 3 0).normals).drop 36).take 3 = [0, 0, 0] := by
    simp only [createGearGeometry]
    rw [show (3 : ℕ) * 4 = 12 from rfl, he]
    simp only [segNormals]
    norm_num [jsHypot, fallbackLen, Real.sqrt_zero]
  refine ⟨hmain, ?_⟩
  rw [hmain]
  norm_num [sqNorm3]

set_option maxHeartbeats 3200000 in
/-- C9 (amended): every normal emitted by the generator is exactly a unit
vector (squared norm 1), except that whenever the vector being normalized
for an outer or inner face is exactly the zero vector, the JS fallback
divides it by 1 and the emitted normal is the zero vector (avoiding NaN
or undefined components, but not of unit length). -/
theorem gear_normals_unit_or_zero (innerRadius outerRadius width : ℝ) (teeth : ℕ)
    (toothDepth : ℝ) (k : ℕ) (hk : k < teeth * 4 * 16) :
    sqNorm3 ((((createGearGeometry innerRadius outerRadius width teeth toothDepth).normals).drop
        (3 * k)).take 3) = 1 ∨
    (((createGearGeometry innerRadius outerRadius width teeth toothDepth).normals).drop
        (3 * k)).take 3 = [0, 0, 0] := by
  obtain ⟨i, j, hj, rfl⟩ : ∃ i j, j < 16 ∧ k = 16 * i + j :=
    ⟨k / 16, k % 16, Nat.mod_lt _ (by norm_num), by omega⟩
  have hi : i < teeth * 4 := by omega
  have hc : ∀ j2, (segNormals innerRadius outerRadius width toothDepth teeth j2).length = 48 :=
    fun j2 => segNormals_length _ _ _ _ _ _
  have h3 : 3 * (16 * i + j) = 48 * i + 3 * j := by ring
  rw [h3]
  have he := flatMap_range_extract (segNormals innerRadius outerRadius width toothDepth teeth)
    48 (teeth * 4) i (3 * j) 3 hc hi (by omega)
  simp only [createGearGeometry]
  rw [he]
  interval_cases j
  all_goals simp only [segNormals]
  all_goals simp only [Nat.reduceMul, List.drop_succ_cons, List.drop_zero,
    List.take_succ_cons, List.take_zero]
  all_goals first
    | exact sqNorm3_normalized _ _
    | norm_num [sqNorm3]

theorem gear_normals_unit_or_zero_witness :
    0 < 3 * 4 * 16 ∧
    (sqNorm3 ((((createGearGeometry 1 2 1 3 0).normals).drop (3 * 0)).take 3) = 1 ∨
     (((createGearGeometry 1 2 1 3 0).normals).drop (3 * 0)).take 3 = [0, 0, 0]) :=
  ⟨by decide, gear_normals_unit_or_zero 1 2 1 3 0 0 (by decide)⟩
